import Mathlib

/-
  Verification of the MMTk-style GC core: a shallow embedding of the
  copying-collection forwarding protocol, CopySpace operations, the
  generational mod-buffer flush, ProcessEdges packets, the NoGC plan and
  the gc_init entry point, with theorems settling the spec claims.

  Object references and addresses are modelled as Nat, with 0 the null
  sentinel. The collector-visible mutable state (forwarding words, the
  copy bump pointer, the trace queue) is an explicit GCState record.
-/

/-- The forwarding word of an object: two metadata bits with states
Unforwarded, BeingForwarded, Forwarded; when Forwarded the remaining bits
hold the new address. -/
inductive ForwardingState where
  | Unforwarded
  | BeingForwarded
  | Forwarded (addr : Nat)
deriving DecidableEq, Repr

/-- Collector state: the forwarding word of every object, the destination
bump pointer used when copying, and the queue of objects enqueued for
scanning by the transitive closure. -/
structure GCState where
  fwd : Nat → ForwardingState
  nextAlloc : Nat
  queue : List Nat

/-- Overwrite the forwarding word of one object. -/
def GCState.setFwd (s : GCState) (o : Nat) (st : ForwardingState) : GCState :=
  { s with fwd := fun x => if x = o then st else s.fwd x }

/-- Modelled from the spec: util::forwarding_word is not under src/.
Atomic compare-and-set attempting the transition Unforwarded to
BeingForwarded; returns the prior value of the forwarding word together
with the updated state. Exactly one caller observes Unforwarded. -/
def ForwardingWord.attempt_to_forward (s : GCState) (o : Nat) :
    ForwardingState × GCState :=
  match s.fwd o with
  | ForwardingState.Unforwarded =>
      (ForwardingState.Unforwarded, s.setFwd o ForwardingState.BeingForwarded)
  | st => (st, s)

/-- Modelled from the spec: util::forwarding_word is not under src/.
True when the observed status is Forwarded or BeingForwarded. -/
def ForwardingWord.state_is_forwarded_or_being_forwarded
    (st : ForwardingState) : Bool :=
  match st with
  | ForwardingState.Unforwarded => false
  | _ => true

/-- Modelled from the spec: util::forwarding_word is not under src/.
Spin-read the forwarding word until it reaches Forwarded and return the
stored new address. The argument spinRead stands for the value of the
forwarding word the spin loop eventually observes once the owning worker
publishes it; none models a spin that does not resolve. -/
def ForwardingWord.spin_and_get_forwarded_object
    (spinRead : ForwardingState) (st : ForwardingState) : Option Nat :=
  match st with
  | ForwardingState.Forwarded a => some a
  | ForwardingState.BeingForwarded =>
      match spinRead with
      | ForwardingState.Forwarded a => some a
      | _ => none
  | ForwardingState.Unforwarded => none

/-- Modelled from the spec: util::forwarding_word is not under src/.
Allocate room for the copy at the destination bump pointer, copy the
object, and publish the new address into the forwarding word with a
release store; returns the new object. -/
def ForwardingWord.forward_object (s : GCState) (o : Nat) : Nat × GCState :=
  let new_object := s.nextAlloc
  (new_object,
   { s.setFwd o (ForwardingState.Forwarded new_object) with
       nextAlloc := s.nextAlloc + 1 })

/-- Modelled from the spec: util::forwarding_word is not under src/.
True when the forwarding word is in the Forwarded state. -/
def ForwardingWord.is_forwarded (s : GCState) (o : Nat) : Bool :=
  match s.fwd o with
  | ForwardingState.Forwarded _ => true
  | _ => false

/-- TransitiveClosure::process_node: enqueue an object for scanning. -/
def TransitiveClosure.process_node (s : GCState) (o : Nat) : GCState :=
  { s with queue := s.queue ++ [o] }

/-- Modelled from the spec: util::heap::MonotonePageResource is not under
src/. Accounting state of a monotone page resource: the bump cursor, the
reserved page count and the committed (chunk-owned) page count. -/
structure MonotonePageResource where
  cursor : Nat
  reserved : Nat
  committed : Nat
deriving DecidableEq, Repr

/-- Modelled from the spec: MonotonePageResource::reset is not under src/.
Release all pages en masse: reset the cursor and the reserved count;
committed chunks stay owned by the space (no zeroing, no return to the
global pool). -/
def MonotonePageResource.reset (p : MonotonePageResource) :
    MonotonePageResource :=
  { p with cursor := 0, reserved := 0 }

/-- CopySpace, from src/src/policy/copyspace.rs: a space with a from_space
flag over a common space (name, zeroed, contiguous) backed by a
MonotonePageResource. -/
structure CopySpace where
  name : String
  zeroed : Bool
  contiguous : Bool
  pr : MonotonePageResource
  from_space : Bool

/-- Space::reserved_pages, delegated to the page resource. -/
def CopySpace.reserved_pages (sp : CopySpace) : Nat :=
  sp.pr.reserved

/-- CopySpace::prepare: set the from_space flag. -/
def CopySpace.prepare (sp : CopySpace) (from_space : Bool) : CopySpace :=
  { sp with from_space := from_space }

/-- CopySpace::release: reset the underlying page resource and clear
from_space. -/
def CopySpace.release (sp : CopySpace) : CopySpace :=
  { sp with pr := sp.pr.reset, from_space := false }

/-- CopySpace::is_live: delegated to ForwardingWord::is_forwarded. -/
def CopySpace.is_live (_sp : CopySpace) (s : GCState) (o : Nat) : Bool :=
  ForwardingWord.is_forwarded s o

/-- CopySpace::trace_object, from src/src/policy/copyspace.rs lines 86 to
114: return the object unchanged unless this is the fromspace; otherwise
attempt the forwarding CAS, spin and return the stored address when the
object is already forwarded or being forwarded, and otherwise copy the
object, enqueue the copy via process_node and return it. The spinRead
argument feeds the spin loop of the modelled forwarding word. -/
def CopySpace.trace_object (sp : CopySpace) (spinRead : ForwardingState)
    (s : GCState) (o : Nat) : Option (Nat × GCState) :=
  if !sp.from_space then
    some (o, s)
  else
    let r := ForwardingWord.attempt_to_forward s o
    if ForwardingWord.state_is_forwarded_or_being_forwarded r.1 then
      match ForwardingWord.spin_and_get_forwarded_object spinRead r.1 with
      | some a => some (a, r.2)
      | none => none
    else
      let q := ForwardingWord.forward_object r.2 o
      some (q.1, TransitiveClosure.process_node q.2 q.1)

/-- Modelled from the spec: CopySpace::trace_mark_object is not under
src/; the sanity mark trace marks the object and returns it unchanged. -/
def CopySpace.trace_mark_object (_sp : CopySpace) (o : Nat) : Nat :=
  o

/-- GenCopyNurseryProcessEdges::trace_object, from
src/src/plan/gencopy/gc_works.rs lines 58 to 70: null returns null;
nursery objects are evacuated through the nursery CopySpace trace; all
other objects are returned unchanged. Space membership is the inNursery
predicate. -/
def GenCopyNurseryProcessEdges.trace_object (nursery : CopySpace)
    (inNursery : Nat → Bool) (spinRead : ForwardingState)
    (s : GCState) (o : Nat) : Option (Nat × GCState) :=
  if o = 0 then
    some (o, s)
  else if inNursery o then
    nursery.trace_object spinRead s o
  else
    some (o, s)

/-- Modelled from the spec: the ProcessEdgesWork trait default for the
write-back switch is not under src/; write-back is enabled unless a packet
overrides it. -/
def ProcessEdgesWork.OVERWRITE_REFERENCE : Bool :=
  true

/-- GenCopyNurseryProcessEdges inherits the default write-back switch. -/
def GenCopyNurseryProcessEdges.OVERWRITE_REFERENCE : Bool :=
  ProcessEdgesWork.OVERWRITE_REFERENCE

/-- SanityGCProcessEdges overrides the write-back switch to false, from
src/src/plan/gencopy/gc_works.rs line 188. -/
def SanityGCProcessEdges.OVERWRITE_REFERENCE : Bool :=
  false

/-- Modelled from the spec: the default ProcessEdgesWork::process_edge is
not under src/. Load the current reference from the slot, trace it, and
write the result back iff the packet's write-back switch is on. Memory is
a map from slot addresses to references; the packet trace is the
traceObject argument. -/
def ProcessEdgesWork.process_edge (overwrite : Bool)
    (traceObject : Nat → Nat) (M : Nat → Nat) (slot : Nat) : Nat → Nat :=
  let object := M slot
  let new_object := traceObject object
  if overwrite then
    fun a => if a = slot then new_object else M a
  else
    M

/-- GenCopyNurseryProcessEdges::process_edge, from
src/src/plan/gencopy/gc_works.rs lines 71 to 80: load the reference,
trace it, and store the result back when OVERWRITE_REFERENCE is set. -/
def GenCopyNurseryProcessEdges.process_edge (nursery : CopySpace)
    (inNursery : Nat → Bool) (spinRead : ForwardingState) (s : GCState)
    (M : Nat → Nat) (slot : Nat) : Option ((Nat → Nat) × GCState) :=
  let object := M slot
  match GenCopyNurseryProcessEdges.trace_object nursery inNursery spinRead s object with
  | some p =>
      if GenCopyNurseryProcessEdges.OVERWRITE_REFERENCE then
        some (fun a => if a = slot then p.1 else M a, p.2)
      else
        some (M, p.2)
  | none => none

/-- SanityGCProcessEdges::trace_object, from
src/src/plan/gencopy/gc_works.rs lines 205 to 214: null returns null,
tospace objects are mark-traced, and anything else hits unreachable. -/
def SanityGCProcessEdges.trace_object (tospace : CopySpace)
    (inTospace : Nat → Bool) (o : Nat) : Except String Nat :=
  if o = 0 then
    Except.ok o
  else if inTospace o then
    Except.ok (tospace.trace_mark_object o)
  else
    Except.error "unreachable"

/-- SanityGCProcessEdges::process_edge with the intended assertions; the
assert calls in src/src/plan/gencopy/gc_works.rs lines 196 to 201 are
missing the comma between the condition and the message and do not
compile as written, so the asserted semantics is taken from the spec:
the loaded reference must target neither the nursery nor the fromspace,
aborting with a message otherwise. No write-back: the memory is returned
unchanged alongside the trace result. -/
def SanityGCProcessEdges.process_edge (tospace : CopySpace)
    (inNursery inFromspace inTospace : Nat → Bool)
    (M : Nat → Nat) (slot : Nat) : Except String ((Nat → Nat) × Nat) :=
  let object := M slot
  if inNursery object then
    Except.error "Invalid edge"
  else if inFromspace object then
    Except.error "Invalid edge"
  else
    match SanityGCProcessEdges.trace_object tospace inTospace object with
    | Except.ok r => Except.ok (M, r)
    | Except.error e => Except.error e

/-- GenCopyProcessModBuf, from src/src/plan/gencopy/gc_works.rs lines 142
to 146: the mutator's modified-object and modified-edge buffers. -/
structure GenCopyProcessModBuf where
  modified_nodes : List Nat
  modified_edges : List Nat
deriving DecidableEq, Repr

/-- Work packets the mod-buffer flush can add to the closure stage:
a ScanObjects packet over objects, or a GenCopyNurseryProcessEdges packet
over edges, each with its roots flag. -/
inductive GCWorkPacket where
  | scanObjects (objects : List Nat) (roots : Bool)
  | nurseryProcessEdges (edges : List Nat) (roots : Bool)
deriving DecidableEq, Repr

/-- GenCopyProcessModBuf::do_work, from src/src/plan/gencopy/gc_works.rs
lines 148 to 163: when the plan reports a nursery collection, swap both
buffers out into a ScanObjects packet and a nursery ProcessEdges packet
added to the scheduler's closure stage (modelled as a list); otherwise do
nothing. -/
def GenCopyProcessModBuf.do_work (in_nursery : Bool)
    (buf : GenCopyProcessModBuf) (closure_stage : List GCWorkPacket) :
    GenCopyProcessModBuf × List GCWorkPacket :=
  if in_nursery then
    ({ modified_nodes := [], modified_edges := [] },
     closure_stage ++
       [GCWorkPacket.scanObjects buf.modified_nodes false,
        GCWorkPacket.nurseryProcessEdges buf.modified_edges true])
  else
    (buf, closure_stage)

/-- The NoGC plan's space accounting, from src/src/plan/nogc/nogc.rs: the
reserved page counts of the VM-reserved space, the immortal nogc_space
and the large-object space. -/
structure NoGCPlan where
  vm_space_reserved : Nat
  space_reserved : Nat
  los_reserved : Nat
deriving DecidableEq, Repr

/-- NoGC::will_never_move, from src/src/plan/nogc/nogc.rs lines 86 to 88:
true for every object. -/
def NoGC.will_never_move (_p : NoGCPlan) (_object : Nat) : Bool :=
  true

/-- NoGC::collection_phase, from src/src/plan/nogc/nogc.rs line 90: an
empty body, so the plan state is returned unchanged for every phase and
tls. -/
def NoGC.collection_phase (p : NoGCPlan) (_tls : Nat) (_phase : Nat) :
    NoGCPlan :=
  p

/-- NoGC::get_pages_used, from src/src/plan/nogc/nogc.rs lines 92 to 95:
the reserved pages of the nogc_space plus those of the large-object
space; the vm_space is not counted. -/
def NoGC.get_pages_used (p : NoGCPlan) : Nat :=
  p.space_reserved + p.los_reserved

/-- Modelled from the spec: util::constants is not under src/; the page
size is a power of two, 4096 bytes. -/
def LOG_BYTES_IN_PAGE : Nat :=
  12

/-- used_bytes, from src/src/mm/memory_manager.rs lines 178 to 180: the
plan's used pages shifted by LOG_BYTES_IN_PAGE. -/
def used_bytes (p : NoGCPlan) : Nat :=
  NoGC.get_pages_used p <<< LOG_BYTES_IN_PAGE

/-- The state touched by gc_init: the one-time logger flag, the heap map
finalization flag, the total page budget and the space-init flag. -/
structure MMTKState where
  logger_done : Bool
  heap_finalized : Bool
  total_pages : Nat
  spaces_inited : Bool
deriving DecidableEq, Repr

/-- Modelled from the spec: util::conversions::bytes_to_pages is not
under src/; convert a byte count to a page count, rounding up. -/
def bytes_to_pages (bytes : Nat) : Nat :=
  (bytes + (1 <<< LOG_BYTES_IN_PAGE) - 1) / (1 <<< LOG_BYTES_IN_PAGE)

/-- Modelled from the spec: util::logger is not under src/; one-time
logger setup succeeds the first time and returns an error when a logger
was already set. -/
def logger_init_once (m : MMTKState) : Except String MMTKState :=
  if m.logger_done then
    Except.error "logger already set"
  else
    Except.ok { m with logger_done := true }

/-- NoGC::gc_init, from src/src/plan/nogc/nogc.rs lines 67 to 76:
finalize the static space map, store the heap size in pages, and init the
spaces. -/
def NoGC.gc_init (m : MMTKState) (heap_size : Nat) : MMTKState :=
  { m with
      heap_finalized := true,
      total_pages := bytes_to_pages heap_size,
      spaces_inited := true }

/-- gc_init, from src/src/mm/memory_manager.rs lines 51 to 54: run the
one-time logger setup, unwrapping its result (an error aborts and leaves
the instance untouched), then run the plan's gc_init. -/
def gc_init (m : MMTKState) (heap_size : Nat) : Except String MMTKState :=
  match logger_init_once m with
  | Except.error e => Except.error e
  | Except.ok m1 => Except.ok (NoGC.gc_init m1 heap_size)

/-- C2: After CopySpace::release returns, from_space is false and the
monotone page resource has been reset so reserved_pages is 0; the name,
zeroed and contiguous fields and the committed chunks are untouched. -/
theorem copySpace_release_spec (sp : CopySpace) :
    sp.release.from_space = false ∧
    sp.release.reserved_pages = 0 ∧
    sp.release.name = sp.name ∧
    sp.release.zeroed = sp.zeroed ∧
    sp.release.contiguous = sp.contiguous ∧
    sp.release.pr.committed = sp.pr.committed :=
  ⟨rfl, rfl, rfl, rfl, rfl, rfl⟩

/-- C3: When the plan reports a nursery collection, do_work moves the
modified_nodes into a ScanObjects packet and the modified_edges into a
GenCopyNurseryProcessEdges packet, both appended to the closure stage,
leaving both buffers empty; otherwise it adds no packet and leaves the
buffers unchanged. -/
theorem genCopyProcessModBuf_do_work_spec (buf : GenCopyProcessModBuf)
    (closure_stage : List GCWorkPacket) :
    GenCopyProcessModBuf.do_work true buf closure_stage =
      ({ modified_nodes := [], modified_edges := [] },
       closure_stage ++
         [GCWorkPacket.scanObjects buf.modified_nodes false,
          GCWorkPacket.nurseryProcessEdges buf.modified_edges true]) ∧
    GenCopyProcessModBuf.do_work false buf closure_stage =
      (buf, closure_stage) :=
  ⟨rfl, rfl⟩

/-- C7: For the NoGC plan, collection_phase changes no plan state for any
phase and tls, and will_never_move returns true for every object. -/
theorem nogc_noop_spec (p : NoGCPlan) (tls phase object : Nat) :
    NoGC.collection_phase p tls phase = p ∧
    NoGC.will_never_move p object = true :=
  ⟨rfl, rfl⟩

/-- C9: CopySpace::is_live returns true exactly when the object's
forwarding word is in the Forwarded state. -/
theorem copySpace_is_live_iff (sp : CopySpace) (s : GCState) (o : Nat) :
    sp.is_live s o = true ↔
      ∃ a, s.fwd o = ForwardingState.Forwarded a := by
  unfold CopySpace.is_live ForwardingWord.is_forwarded
  cases h : s.fwd o <;> simp

/-- C10: NoGC::get_pages_used is exactly the sum of the reserved pages of
the nogc_space and the large-object space; both it and used_bytes are
independent of the vm_space's reserved pages. -/
theorem nogc_pages_used_spec (p : NoGCPlan) (v : Nat) :
    NoGC.get_pages_used p = p.space_reserved + p.los_reserved ∧
    NoGC.get_pages_used { p with vm_space_reserved := v } =
      NoGC.get_pages_used p ∧
    used_bytes { p with vm_space_reserved := v } = used_bytes p :=
  ⟨rfl, rfl, rfl⟩

/-- C1: On a fromspace CopySpace, trace_object on an Unforwarded object
wins the CAS, copies it at the destination bump pointer, publishes the
new address into the forwarding word, enqueues the copy exactly once via
process_node and returns the new address; on an already-Forwarded object
it returns the stored address without enqueuing; on a BeingForwarded
object it spins until the word reads Forwarded and returns the stored
address without enqueuing. -/
theorem copySpace_trace_object_spec (sp : CopySpace)
    (spinRead : ForwardingState) (s : GCState) (o a : Nat)
    (hfs : sp.from_space = true) :
    (s.fwd o = ForwardingState.Unforwarded →
      ∃ s', sp.trace_object spinRead s o = some (s.nextAlloc, s') ∧
        s'.fwd o = ForwardingState.Forwarded s.nextAlloc ∧
        (∀ x, x ≠ o → s'.fwd x = s.fwd x) ∧
        s'.queue = s.queue ++ [s.nextAlloc] ∧
        s'.nextAlloc = s.nextAlloc + 1) ∧
    (s.fwd o = ForwardingState.Forwarded a →
      sp.trace_object spinRead s o = some (a, s)) ∧
    (s.fwd o = ForwardingState.BeingForwarded →
      spinRead = ForwardingState.Forwarded a →
      sp.trace_object spinRead s o = some (a, s)) := by
  refine ⟨?_, ?_, ?_⟩
  · intro hU
    have heval : sp.trace_object spinRead s o =
        some (s.nextAlloc,
          { fwd := fun x =>
              if x = o then ForwardingState.Forwarded s.nextAlloc
              else if x = o then ForwardingState.BeingForwarded
              else s.fwd x,
            nextAlloc := s.nextAlloc + 1,
            queue := s.queue ++ [s.nextAlloc] }) := by
      simp [CopySpace.trace_object, hfs, ForwardingWord.attempt_to_forward,
        hU, ForwardingWord.state_is_forwarded_or_being_forwarded,
        ForwardingWord.forward_object, TransitiveClosure.process_node,
        GCState.setFwd]
    refine ⟨_, heval, by simp, fun x hx => by simp [hx], rfl, rfl⟩
  · intro hF
    simp [CopySpace.trace_object, hfs, ForwardingWord.attempt_to_forward,
      hF, ForwardingWord.state_is_forwarded_or_being_forwarded,
      ForwardingWord.spin_and_get_forwarded_object]
  · intro hB hspin
    simp [CopySpace.trace_object, hfs, ForwardingWord.attempt_to_forward,
      hB, hspin, ForwardingWord.state_is_forwarded_or_being_forwarded,
      ForwardingWord.spin_and_get_forwarded_object]

/-- Witness for C1 at a concrete fromspace, state and object. -/
theorem copySpace_trace_object_spec_witness :
    ∃ s', CopySpace.trace_object
        { name := "ss", zeroed := true, contiguous := false,
          pr := { cursor := 0, reserved := 0, committed := 0 },
          from_space := true }
        ForwardingState.Unforwarded
        { fwd := fun _ => ForwardingState.Unforwarded,
          nextAlloc := 5, queue := [] } 1 = some (5, s') ∧
      s'.fwd 1 = ForwardingState.Forwarded 5 ∧
      (∀ x, x ≠ 1 → s'.fwd x = ForwardingState.Unforwarded) ∧
      s'.queue = [5] ∧
      s'.nextAlloc = 6 :=
  (copySpace_trace_object_spec
    { name := "ss", zeroed := true, contiguous := false,
      pr := { cursor := 0, reserved := 0, committed := 0 },
      from_space := true }
    ForwardingState.Unforwarded
    { fwd := fun _ => ForwardingState.Unforwarded,
      nextAlloc := 5, queue := [] } 1 0 rfl).1 rfl

/-- C5: A CopySpace that is not the fromspace returns its argument
unchanged; the nursery trace returns null for null and returns any
non-null object outside the nursery unchanged. -/
theorem trace_null_nonfromspace_spec (sp nursery : CopySpace)
    (inNursery : Nat → Bool) (spinRead : ForwardingState)
    (s : GCState) (o : Nat) :
    (sp.from_space = false → sp.trace_object spinRead s o = some (o, s)) ∧
    GenCopyNurseryProcessEdges.trace_object nursery inNursery spinRead s 0 =
      some (0, s) ∧
    (o ≠ 0 → inNursery o = false →
      GenCopyNurseryProcessEdges.trace_object nursery inNursery spinRead s o =
        some (o, s)) := by
  refine ⟨?_, ?_, ?_⟩
  · intro h
    simp [CopySpace.trace_object, h]
  · simp [GenCopyNurseryProcessEdges.trace_object]
  · intro h1 h2
    simp [GenCopyNurseryProcessEdges.trace_object, h1, h2]

/-- Witness for C5 at a concrete space, state and object. -/
theorem trace_null_nonfromspace_spec_witness :
    CopySpace.trace_object
      { name := "ss", zeroed := true, contiguous := false,
        pr := { cursor := 0, reserved := 0, committed := 0 },
        from_space := false }
      ForwardingState.Unforwarded
      { fwd := fun _ => ForwardingState.Unforwarded,
        nextAlloc := 0, queue := [] } 2 =
      some (2, { fwd := fun _ => ForwardingState.Unforwarded,
                 nextAlloc := 0, queue := [] }) ∧
    GenCopyNurseryProcessEdges.trace_object
      { name := "ss", zeroed := true, contiguous := false,
        pr := { cursor := 0, reserved := 0, committed := 0 },
        from_space := false }
      (fun _ => false) ForwardingState.Unforwarded
      { fwd := fun _ => ForwardingState.Unforwarded,
        nextAlloc := 0, queue := [] } 0 =
      some (0, { fwd := fun _ => ForwardingState.Unforwarded,
                 nextAlloc := 0, queue := [] }) ∧
    GenCopyNurseryProcessEdges.trace_object
      { name := "ss", zeroed := true, contiguous := false,
        pr := { cursor := 0, reserved := 0, committed := 0 },
        from_space := false }
      (fun _ => false) ForwardingState.Unforwarded
      { fwd := fun _ => ForwardingState.Unforwarded,
        nextAlloc := 0, queue := [] } 2 =
      some (2, { fwd := fun _ => ForwardingState.Unforwarded,
                 nextAlloc := 0, queue := [] }) := by
  have h := trace_null_nonfromspace_spec
    { name := "ss", zeroed := true, contiguous := false,
      pr := { cursor := 0, reserved := 0, committed := 0 },
      from_space := false }
    { name := "ss", zeroed := true, contiguous := false,
      pr := { cursor := 0, reserved := 0, committed := 0 },
      from_space := false }
    (fun _ => false) ForwardingState.Unforwarded
    { fwd := fun _ => ForwardingState.Unforwarded,
      nextAlloc := 0, queue := [] } 2
  exact ⟨h.1 rfl, h.2.1, h.2.2 (by decide) rfl⟩

/-- C4: A ProcessEdges packet's process_edge loads the reference from the
slot, traces it, and writes the result back iff the write-back switch is
on; SanityGCProcessEdges sets OVERWRITE_REFERENCE to false and its
process_edge returns the memory unchanged, while
GenCopyNurseryProcessEdges keeps the default and stores the traced
reference back into the slot, leaving every other slot unchanged. -/
theorem process_edge_overwrite_spec (overwrite : Bool) (t M : Nat → Nat)
    (slot : Nat) (nursery tospace : CopySpace)
    (inNursery inN inF inT : Nat → Bool)
    (spinRead : ForwardingState) (s : GCState) :
    (overwrite = true →
      ProcessEdgesWork.process_edge overwrite t M slot slot = t (M slot) ∧
      ∀ x, x ≠ slot → ProcessEdgesWork.process_edge overwrite t M slot x = M x) ∧
    (overwrite = false →
      ProcessEdgesWork.process_edge overwrite t M slot = M) ∧
    SanityGCProcessEdges.OVERWRITE_REFERENCE = false ∧
    GenCopyNurseryProcessEdges.OVERWRITE_REFERENCE = true ∧
    (∀ Mr r, SanityGCProcessEdges.process_edge tospace inN inF inT M slot =
        Except.ok (Mr, r) → Mr = M) ∧
    (∀ p, GenCopyNurseryProcessEdges.trace_object nursery inNursery spinRead
        s (M slot) = some p →
      GenCopyNurseryProcessEdges.process_edge nursery inNursery spinRead s
          M slot =
        some (fun x => if x = slot then p.1 else M x, p.2)) := by
  refine ⟨?_, ?_, rfl, rfl, ?_, ?_⟩
  · intro h
    subst h
    exact ⟨by simp [ProcessEdgesWork.process_edge],
      fun x hx => by simp [ProcessEdgesWork.process_edge, hx]⟩
  · intro h
    subst h
    rfl
  · intro Mr r h
    unfold SanityGCProcessEdges.process_edge at h
    by_cases h1 : inN (M slot) = true
    · simp [h1] at h
    · by_cases h2 : inF (M slot) = true
      · simp [h1, h2] at h
      · cases h3 : SanityGCProcessEdges.trace_object tospace inT (M slot) with
        | error e => simp [h1, h2, h3] at h
        | ok v =>
          simp [h1, h2, h3] at h
          exact h.1.symm
  · intro p hp
    simp [GenCopyNurseryProcessEdges.process_edge, hp,
      GenCopyNurseryProcessEdges.OVERWRITE_REFERENCE,
      ProcessEdgesWork.OVERWRITE_REFERENCE]

/-- Witness for C4 at concrete memories, traces and spaces, covering both
values of the write-back switch, the sanity packet and the nursery
packet. -/
theorem process_edge_overwrite_spec_witness :
    ProcessEdgesWork.process_edge true (fun n => n + 1) (fun _ => 7) 2 2 = 8 ∧
    ProcessEdgesWork.process_edge false (fun n => n + 1) (fun _ => 7) 2 =
      (fun _ => 7) ∧
    ((fun _ => 7) : Nat → Nat) = (fun _ => 7) ∧
    GenCopyNurseryProcessEdges.process_edge
      { name := "ss", zeroed := true, contiguous := false,
        pr := { cursor := 0, reserved := 0, committed := 0 },
        from_space := false }
      (fun _ => false) ForwardingState.Unforwarded
      { fwd := fun _ => ForwardingState.Unforwarded,
        nextAlloc := 0, queue := [] }
      (fun _ => 7) 2 =
      some (fun x => if x = 2 then 7 else 7,
        { fwd := fun _ => ForwardingState.Unforwarded,
          nextAlloc := 0, queue := [] }) := by
  have h1 := process_edge_overwrite_spec true (fun n => n + 1) (fun _ => 7) 2
    { name := "ss", zeroed := true, contiguous := false,
      pr := { cursor := 0, reserved := 0, committed := 0 },
      from_space := false }
    { name := "ss", zeroed := true, contiguous := false,
      pr := { cursor := 0, reserved := 0, committed := 0 },
      from_space := false }
    (fun _ => false) (fun _ => false) (fun _ => false) (fun _ => true)
    ForwardingState.Unforwarded
    { fwd := fun _ => ForwardingState.Unforwarded,
      nextAlloc := 0, queue := [] }
  have h2 := process_edge_overwrite_spec false (fun n => n + 1) (fun _ => 7) 2
    { name := "ss", zeroed := true, contiguous := false,
      pr := { cursor := 0, reserved := 0, committed := 0 },
      from_space := false }
    { name := "ss", zeroed := true, contiguous := false,
      pr := { cursor := 0, reserved := 0, committed := 0 },
      from_space := false }
    (fun _ => false) (fun _ => false) (fun _ => false) (fun _ => true)
    ForwardingState.Unforwarded
    { fwd := fun _ => ForwardingState.Unforwarded,
      nextAlloc := 0, queue := [] }
  exact ⟨(h1.1 rfl).1, h2.2.1 rfl,
    h1.2.2.2.2.1 (fun _ => 7) 7 rfl,
    h1.2.2.2.2.2
      (7, { fwd := fun _ => ForwardingState.Unforwarded,
            nextAlloc := 0, queue := [] }) rfl⟩

/-- C6: With the intended assertion semantics, the sanity process_edge
aborts with the invalid-edge message whenever the loaded reference
targets the nursery or the fromspace, and the sanity trace_object on a
non-null object outside the tospace reaches the unreachable panic. -/
theorem sanity_assertions_spec (tospace : CopySpace)
    (inN inF inT : Nat → Bool) (M : Nat → Nat) (slot o : Nat) :
    (inN (M slot) = true →
      SanityGCProcessEdges.process_edge tospace inN inF inT M slot =
        Except.error "Invalid edge") ∧
    (inF (M slot) = true →
      SanityGCProcessEdges.process_edge tospace inN inF inT M slot =
        Except.error "Invalid edge") ∧
    (o ≠ 0 → inT o = false →
      SanityGCProcessEdges.trace_object tospace inT o =
        Except.error "unreachable") := by
  refine ⟨?_, ?_, ?_⟩
  · intro h
    simp [SanityGCProcessEdges.process_edge, h]
  · intro h
    by_cases h1 : inN (M slot) = true <;>
      simp [SanityGCProcessEdges.process_edge, h, h1]
  · intro h1 h2
    simp [SanityGCProcessEdges.trace_object, h1, h2]

/-- Witness for C6 at a concrete space, memory and object. -/
theorem sanity_assertions_spec_witness :
    SanityGCProcessEdges.process_edge
      { name := "ss", zeroed := true, contiguous := false,
        pr := { cursor := 0, reserved := 0, committed := 0 },
        from_space := true }
      (fun _ => true) (fun _ => true) (fun _ => false) (fun _ => 5) 2 =
      Except.error "Invalid edge" ∧
    SanityGCProcessEdges.trace_object
      { name := "ss", zeroed := true, contiguous := false,
        pr := { cursor := 0, reserved := 0, committed := 0 },
        from_space := true }
      (fun _ => false) 3 = Except.error "unreachable" := by
  have h := sanity_assertions_spec
    { name := "ss", zeroed := true, contiguous := false,
      pr := { cursor := 0, reserved := 0, committed := 0 },
      from_space := true }
    (fun _ => true) (fun _ => true) (fun _ => false) (fun _ => 5) 2 3
  exact ⟨h.1 rfl, h.2.2 (by decide) rfl⟩

/-- C8: A first call to gc_init on an instance whose one-time logger
setup has not run succeeds and performs initialization; a second call on
the resulting instance is detected by the one-time check and returns an
error without re-running initialization. -/
theorem gc_init_idempotent_check (m : MMTKState) (h1 h2 : Nat)
    (hm : m.logger_done = false) :
    ∃ m1, gc_init m h1 = Except.ok m1 ∧ m1.logger_done = true ∧
      m1.heap_finalized = true ∧ m1.spaces_inited = true ∧
      m1.total_pages = bytes_to_pages h1 ∧
      gc_init m1 h2 = Except.error "logger already set" := by
  refine ⟨NoGC.gc_init { m with logger_done := true } h1, ?_, rfl, rfl, rfl,
    rfl, ?_⟩
  · simp [gc_init, logger_init_once, hm]
  · simp [gc_init, logger_init_once, NoGC.gc_init]

/-- Witness for C8 at a concrete uninitialized instance. -/
theorem gc_init_idempotent_check_witness :
    ∃ m1, gc_init
        { logger_done := false, heap_finalized := false,
          total_pages := 0, spaces_inited := false } 4096 =
        Except.ok m1 ∧ m1.logger_done = true ∧
      m1.heap_finalized = true ∧ m1.spaces_inited = true ∧
      m1.total_pages = bytes_to_pages 4096 ∧
      gc_init m1 8192 = Except.error "logger already set" :=
  gc_init_idempotent_check
    { logger_done := false, heap_finalized := false,
      total_pages := 0, spaces_inited := false } 4096 8192 rfl
